import Mathlib

/-!
Verification of the FreeResend transactional-email relay against its
natural-language specification.  The definitions below are shallow
embeddings of the TypeScript sources: pure functions become Lean
functions, database effects become explicit state passing over a `DB`
record, and external calls (mail provider, DNS provider, database
driver) become `Except`/`Option` valued parameters that stand for the
outcome of the call.
-/

namespace FreeResend

/-! ## Character-level string helpers

The TypeScript sources use `String.prototype.split`, `indexOf` and
`replace` (first occurrence).  We model them by structural recursion on
the character list of a string, mirroring the JavaScript semantics. -/

/-- JavaScript `s.split(sep)` for a single-character separator: splits on
every occurrence, keeping empty segments. -/
def splitChar (sep : Char) : List Char → List (List Char)
  | [] => [[]]
  | c :: rest =>
    if c = sep then [] :: splitChar sep rest
    else
      match splitChar sep rest with
      | [] => [[c]]
      | g :: gs => (c :: g) :: gs

/-- JavaScript `indexOf(sep)` followed by the two `substring` calls:
splits a character list at the first occurrence of `sep`, returning the
part before and the part after, or `none` when `sep` does not occur. -/
def breakAt (sep : Char) : List Char → Option (List Char × List Char)
  | [] => none
  | c :: rest =>
    if c = sep then some ([], rest)
    else (breakAt sep rest).map (fun p => (c :: p.1, p.2))

/-- `l.take p.length == p`, i.e. the test JavaScript `startsWith` makes. -/
def startsWith (pat l : List Char) : Bool := l.take pat.length == pat

/-- JavaScript `s.replace(pat, "")` for a plain string pattern: removes
the first occurrence of `pat`, leaving the string unchanged when the
pattern does not occur. -/
def removeSub (pat : List Char) : List Char → List Char
  | [] => []
  | c :: rest =>
    if startsWith pat (c :: rest) then (c :: rest).drop pat.length
    else c :: removeSub pat rest

theorem splitChar_ne_nil (sep : Char) (l : List Char) : splitChar sep l ≠ [] := by
  induction l with
  | nil => simp [splitChar]
  | cons c rest ih =>
    simp only [splitChar]
    split
    · simp
    · cases h : splitChar sep rest with
      | nil => simp
      | cons g gs => simp

theorem splitChar_of_not_mem (sep : Char) (l : List Char) (h : sep ∉ l) :
    splitChar sep l = [l] := by
  induction l with
  | nil => rfl
  | cons c rest ih =>
    simp only [List.mem_cons, not_or] at h
    simp only [splitChar]
    rw [if_neg (by exact fun hc => h.1 hc.symm)]
    rw [ih h.2]

theorem splitChar_append (sep : Char) (a b : List Char) (h : sep ∉ a) :
    splitChar sep (a ++ sep :: b) = a :: splitChar sep b := by
  induction a with
  | nil => simp [splitChar]
  | cons c rest ih =>
    simp only [List.mem_cons, not_or] at h
    simp only [List.cons_append, splitChar]
    rw [if_neg (by exact fun hc => h.1 hc.symm)]
    rw [show rest.append (sep :: b) = rest ++ sep :: b from rfl, ih h.2]

theorem splitChar_length_ge_two (sep : Char) (l : List Char) (h : sep ∈ l) :
    2 ≤ (splitChar sep l).length := by
  induction l with
  | nil => cases h
  | cons c rest ih =>
    simp only [splitChar]
    by_cases hc : c = sep
    · rw [if_pos hc]
      have := splitChar_ne_nil sep rest
      cases hr : splitChar sep rest with
      | nil => exact absurd hr this
      | cons g gs => simp
    · rw [if_neg hc]
      have hmem : sep ∈ rest := by
        rcases List.mem_cons.mp h with h1 | h1
        · exact absurd h1.symm hc
        · exact h1
      cases hr : splitChar sep rest with
      | nil => exact absurd hr (splitChar_ne_nil sep rest)
      | cons g gs =>
        have := ih hmem
        rw [hr] at this
        simpa using this

theorem breakAt_of_not_mem (sep : Char) (l : List Char) (h : sep ∉ l) :
    breakAt sep l = none := by
  induction l with
  | nil => rfl
  | cons c rest ih =>
    simp only [List.mem_cons, not_or] at h
    simp only [breakAt]
    rw [if_neg (by exact fun hc => h.1 hc.symm)]
    rw [ih h.2]
    rfl

theorem breakAt_append (sep : Char) (a b : List Char) (h : sep ∉ a) :
    breakAt sep (a ++ sep :: b) = some (a, b) := by
  induction a with
  | nil => simp [breakAt]
  | cons c rest ih =>
    simp only [List.mem_cons, not_or] at h
    simp only [List.cons_append, breakAt]
    rw [if_neg (by exact fun hc => h.1 hc.symm)]
    rw [show rest.append (sep :: b) = rest ++ sep :: b from rfl, ih h.2]
    rfl

/-! ## Domain validator (src/lib/domains.ts, isValidDomain)

The source tests the string against the regular expression
`[a-zA-Z0-9]([a-zA-Z0-9-]\x7b0,61\x7d[a-zA-Z0-9])?` applied to each
dot-separated label, anchored over the whole string, and additionally
requires the total length to be at most 253. -/

/-- Character class `[a-zA-Z0-9]`. -/
def isAlphaNum (c : Char) : Bool :=
  (decide ('a' ≤ c) && decide (c ≤ 'z')) ||
  (decide ('A' ≤ c) && decide (c ≤ 'Z')) ||
  (decide ('0' ≤ c) && decide (c ≤ '9'))

/-- Character class `[a-zA-Z0-9-]`. -/
def isLabelChar (c : Char) : Bool := isAlphaNum c || c == '-'

/-- One label of the regex: a single alphanumeric character, or an
alphanumeric character, up to 61 alphanumeric-or-hyphen characters, and
a final alphanumeric character. -/
def labelOk : List Char → Bool
  | [] => false
  | c :: rest =>
    isAlphaNum c &&
      (match rest.reverse with
       | [] => true
       | d :: mid => isAlphaNum d && decide (mid.length ≤ 61) && mid.all isLabelChar)

/-- `isValidDomain` from src/lib/domains.ts: the regex matches the whole
string as dot-separated labels, and the length is at most 253. -/
def isValidDomain (s : String) : Bool :=
  (splitChar '.' s.data).all labelOk && decide (s.length ≤ 253)

theorem labelOk_spec (l : List Char) (h : labelOk l = true) :
    1 ≤ l.length ∧ l.length ≤ 63 ∧ (∀ c ∈ l, isLabelChar c = true) ∧
    l.head? ≠ some '-' ∧ l.getLast? ≠ some '-' := by
  cases l with
  | nil => simp [labelOk] at h
  | cons c rest =>
    simp only [labelOk, Bool.and_eq_true] at h
    obtain ⟨hc, hrest⟩ := h
    have hcnh : c ≠ '-' := by
      intro he; rw [he] at hc; simp [isAlphaNum] at hc
    cases hr : rest.reverse with
    | nil =>
      have : rest = [] := by
        have := congrArg List.reverse hr
        simpa using this
      subst this
      refine ⟨by simp, by simp, ?_, by simpa using hcnh, by simpa using hcnh⟩
      intro x hx
      simp at hx
      subst hx
      simp [isLabelChar, hc]
    | cons d mid =>
      rw [hr] at hrest
      simp only [Bool.and_eq_true, decide_eq_true_eq] at hrest
      obtain ⟨⟨hd, hmidlen⟩, hmid⟩ := hrest
      have hrest_eq : rest = mid.reverse ++ [d] := by
        have := congrArg List.reverse hr
        simpa using this
      have hdnh : d ≠ '-' := by
        intro he; rw [he] at hd; simp [isAlphaNum] at hd
      subst hrest_eq
      constructor
      · simp
      constructor
      · have hlen : (c :: (mid.reverse ++ [d])).length = mid.length + 2 := by
          simp
        omega
      constructor
      · intro x hx
        rw [List.mem_cons] at hx
        rcases hx with h1 | h1
        · subst h1; simp [isLabelChar, hc]
        · rw [List.mem_append, List.mem_reverse] at h1
          rcases h1 with h1 | h1
          · exact List.all_eq_true.mp hmid x h1
          · rw [List.mem_singleton] at h1
            subst h1; simp [isLabelChar, hd]
      constructor
      · simpa using hcnh
      · have : (c :: (mid.reverse ++ [d])).getLast? = some d := by
          rw [show c :: (mid.reverse ++ [d]) = (c :: mid.reverse) ++ [d] by simp]
          exact List.getLast?_concat _
        rw [this]
        simpa using hdnh

/-- C7: every string accepted by the domain validator has only dot-separated
labels of 1 to 63 alphanumeric-or-hyphen characters with no leading or
trailing hyphen, and total length at most 253; the empty string and any
string with an over-long label or a label with a leading or trailing
hyphen are rejected.  (The check is a pure function by construction,
mirroring the source, which performs no I/O.) -/
theorem C7_domain_validator (s : String) :
    (isValidDomain s = true →
      s.length ≤ 253 ∧
      ∀ l ∈ splitChar '.' s.data,
        1 ≤ l.length ∧ l.length ≤ 63 ∧ (∀ c ∈ l, isLabelChar c = true) ∧
        l.head? ≠ some '-' ∧ l.getLast? ≠ some '-') ∧
    isValidDomain "" = false ∧
    ((∃ l ∈ splitChar '.' s.data,
        63 < l.length ∨ l.head? = some '-' ∨ l.getLast? = some '-') →
      isValidDomain s = false) := by
  have hmain : isValidDomain s = true →
      s.length ≤ 253 ∧
      ∀ l ∈ splitChar '.' s.data,
        1 ≤ l.length ∧ l.length ≤ 63 ∧ (∀ c ∈ l, isLabelChar c = true) ∧
        l.head? ≠ some '-' ∧ l.getLast? ≠ some '-' := by
    intro h
    unfold isValidDomain at h
    rw [Bool.and_eq_true, decide_eq_true_eq] at h
    refine ⟨h.2, ?_⟩
    intro l hl
    exact labelOk_spec l (List.all_eq_true.mp h.1 l hl)
  refine ⟨hmain, by decide, ?_⟩
  rintro ⟨l, hl, hbad⟩
  by_contra hval
  rw [Bool.not_eq_false] at hval
  obtain ⟨-, hlab⟩ := hmain hval
  obtain ⟨-, hlen, -, hhead, hlast⟩ := hlab l hl
  rcases hbad with h1 | h1 | h1
  · omega
  · exact hhead h1
  · exact hlast h1

/-- Witness for C7 at the concrete input "example.com". -/
theorem C7_domain_validator_witness :
    "example.com".length ≤ 253 ∧
    ∀ l ∈ splitChar '.' "example.com".data,
      1 ≤ l.length ∧ l.length ≤ 63 ∧ (∀ c ∈ l, isLabelChar c = true) ∧
      l.head? ≠ some '-' ∧ l.getLast? ≠ some '-' :=
  (C7_domain_validator "example.com").1 (by decide)

/-! ## API-key service (src/lib/api-keys.ts)

`generateApiKey` draws two random nanoid segments (the 8-character key
id and the 32-character secret); we inject them as parameters.  bcrypt
is idealised: `compare(c, h)` succeeds exactly when `h` was produced by
hashing `c`. -/

/-- Idealised bcrypt.hash. -/
def bcryptHash (s : String) : String := "bcrypt$" ++ s

/-- Idealised bcrypt.compare: succeeds exactly when the stored hash was
produced from the candidate. -/
def bcryptCompare (candidate stored : String) : Bool := stored == bcryptHash candidate

/-- The persisted api_keys row (the columns the key service reads). -/
structure ApiKeyRow where
  id : Nat
  keyHash : String
  keyPref : String
deriving DecidableEq

/-- `generateApiKey`: builds the plaintext secret
frs_(keyId)_(keySecret), stores its hash and the lookup portion
frs_(keyId), and returns the plaintext together with the stored row. -/
def generateApiKey (keyId keySecret : String) (rowId : Nat) : String × ApiKeyRow :=
  let apiKey := "frs_" ++ keyId ++ "_" ++ keySecret
  (apiKey, { id := rowId, keyHash := bcryptHash apiKey, keyPref := "frs_" ++ keyId })

/-- `verifyApiKey`: locates the first two underscores of the candidate
(indexOf / substring in the source), rejects malformed input, filters
the stored keys by the lookup portion, and returns the first row whose
hash matches the whole candidate. -/
def verifyApiKey (candidate : String) (keys : List ApiKeyRow) : Option ApiKeyRow :=
  match breakAt '_' candidate.data with
  | none => none
  | some (p, rest1) =>
    match breakAt '_' rest1 with
    | none => none
    | some (k, secret) =>
      if String.mk p ≠ "frs" ∨ k = [] ∨ secret = [] then none
      else
        let pref := String.mk p ++ "_" ++ String.mk k
        (keys.filter (fun row => row.keyPref == pref)).find?
          (fun row => bcryptCompare candidate row.keyHash)

/-- `maskApiKey`: splits on every underscore; when exactly three parts
result, the third is replaced by asterisks, otherwise the key is
returned unchanged. -/
def maskApiKey (apiKey : String) : String :=
  match splitChar '_' apiKey.data with
  | [a, b, c] =>
      String.mk a ++ "_" ++ String.mk b ++ "_" ++ String.mk (List.replicate c.length '*')
  | _ => apiKey

theorem string_data_eq_nil (s : String) : s.data = [] ↔ s = "" := by
  cases s with
  | mk l =>
    constructor
    · intro h
      simp only [String.data] at h
      subst h
      rfl
    · intro h
      rw [h]

theorem string_mk_data (s : String) : String.mk s.data = s := by
  cases s
  rfl

theorem key_data (keyId s2 : String) :
    ("frs_" ++ keyId ++ "_" ++ s2).data
      = ['f', 'r', 's'] ++ '_' :: (keyId.data ++ '_' :: s2.data) := by
  show ((['f', 'r', 's', '_'] ++ keyId.data) ++ ['_']) ++ s2.data = _
  simp

theorem string_append_left_cancel (a b c : String) (h : a ++ b = a ++ c) : b = c := by
  apply String.ext
  have hd : a.data ++ b.data = a.data ++ c.data := congrArg String.data h
  exact List.append_cancel_left hd

theorem key_string_inj (keyId a b : String)
    (h : "frs_" ++ keyId ++ "_" ++ a = "frs_" ++ keyId ++ "_" ++ b) : a = b := by
  have hd := congrArg String.data h
  rw [key_data, key_data] at hd
  have h1 := List.append_cancel_left hd
  have h2 : keyId.data ++ '_' :: a.data = keyId.data ++ '_' :: b.data := by
    injection h1
  have h3 := List.append_cancel_left h2
  have h4 : a.data = b.data := by injection h3
  exact String.ext h4

theorem verifyApiKey_parse (keyId s2 : String) (hid : '_' ∉ keyId.data)
    (keys : List ApiKeyRow) :
    verifyApiKey ("frs_" ++ keyId ++ "_" ++ s2) keys =
      if keyId = "" ∨ s2 = "" then none
      else
        (keys.filter (fun row => row.keyPref == "frs_" ++ keyId)).find?
          (fun row => bcryptCompare ("frs_" ++ keyId ++ "_" ++ s2) row.keyHash) := by
  have e1 := breakAt_append '_' ['f', 'r', 's'] (keyId.data ++ '_' :: s2.data) (by decide)
  have e2 := breakAt_append '_' keyId.data s2.data hid
  unfold verifyApiKey
  rw [key_data]
  simp only [e1, e2]
  simp only [show String.mk ['f', 'r', 's'] = "frs" from rfl]
  by_cases h1 : keyId = ""
  · have : keyId.data = [] := (string_data_eq_nil keyId).mpr h1
    simp [this, h1]
  · by_cases h2 : s2 = ""
    · have : s2.data = [] := (string_data_eq_nil s2).mpr h2
      simp [this, h2]
    · have hk : keyId.data ≠ [] := fun h => h1 ((string_data_eq_nil keyId).mp h)
      have hs : s2.data ≠ [] := fun h => h2 ((string_data_eq_nil s2).mp h)
      rw [if_neg (by simp [hk, hs]), if_neg (by simp [h1, h2])]
      have hpref : "frs" ++ "_" ++ String.mk keyId.data = "frs_" ++ keyId := by
        rw [string_mk_data]
        rfl
      rw [hpref]

/-- C6 (amended): for every generated key whose random id segment
contains no underscore, verify applied to the plaintext returned by
generate yields the stored row id; and any candidate with the valid
lookup portion but a different secret segment (in particular any
single-character mutation of the secret) is rejected with `none`,
without throwing.  The secret segment itself may contain underscores:
parsing locates the first two delimiters only. -/
theorem C6_api_key_roundtrip (keyId keySecret : String) (rowId : Nat)
    (hid1 : keyId ≠ "") (hid2 : '_' ∉ keyId.data) (hs : keySecret ≠ "") :
    (verifyApiKey (generateApiKey keyId keySecret rowId).1
        [(generateApiKey keyId keySecret rowId).2]).map (fun r => r.id) = some rowId ∧
    (∀ s2 : String, s2 ≠ keySecret →
      verifyApiKey ("frs_" ++ keyId ++ "_" ++ s2)
        [(generateApiKey keyId keySecret rowId).2] = none) := by
  constructor
  · show (verifyApiKey ("frs_" ++ keyId ++ "_" ++ keySecret) _).map _ = _
    rw [verifyApiKey_parse keyId keySecret hid2]
    rw [if_neg (by simp [hid1, hs])]
    simp [generateApiKey, List.filter, List.find?, bcryptCompare]
  · intro s2 hne
    rw [verifyApiKey_parse keyId s2 hid2]
    by_cases h2 : s2 = ""
    · rw [if_pos (Or.inr h2)]
    · rw [if_neg (by simp [hid1, h2])]
      have hcmp : bcryptCompare ("frs_" ++ keyId ++ "_" ++ s2)
          (bcryptHash ("frs_" ++ keyId ++ "_" ++ keySecret)) = false := by
        simp only [bcryptCompare, bcryptHash]
        rw [beq_eq_false_iff_ne]
        intro h
        have h2 := string_append_left_cancel "bcrypt$" _ _ h.symm
        exact hne (key_string_inj keyId s2 keySecret h2)
      simp [generateApiKey, List.filter, List.find?, hcmp]

/-- Witness for C6 at a concrete generated key, exercising an
underscore inside the secret segment and a one-character mutation. -/
theorem C6_api_key_roundtrip_witness :
    (verifyApiKey (generateApiKey "abCD1234" "s_0123456789abcdefghijklmnopqrs" 5).1
        [(generateApiKey "abCD1234" "s_0123456789abcdefghijklmnopqrs" 5).2]).map
        (fun r => r.id) = some 5 ∧
    verifyApiKey ("frs_" ++ "abCD1234" ++ "_" ++ "s_0123456789abcdefghijklmnopqrS")
        [(generateApiKey "abCD1234" "s_0123456789abcdefghijklmnopqrs" 5).2] = none := by
  have h := C6_api_key_roundtrip "abCD1234" "s_0123456789abcdefghijklmnopqrs" 5
    (by decide) (by decide) (by decide)
  exact ⟨h.1, h.2 "s_0123456789abcdefghijklmnopqrS" (by decide)⟩

/-- C6 counterexample: the claim as stated fails for a generated key
whose random 8-character id segment itself contains an underscore (a
character the nanoid alphabet produces): the stored lookup portion is
frs_a_bcdefg, but verify parses only up to the second underscore and
looks up frs_a, so the round trip returns none instead of the stored
row. -/
theorem C6_counterexample :
    "a_bcdefg".length = 8 ∧
    verifyApiKey (generateApiKey "a_bcdefg" "0123456789abcdefghijklmnopqrstuv" 7).1
      [(generateApiKey "a_bcdefg" "0123456789abcdefghijklmnopqrstuv" 7).2] = none := by
  constructor
  · rfl
  · decide

theorem maskApiKey_of_length_ne_three (s : String)
    (h : (splitChar '_' s.data).length ≠ 3) : maskApiKey s = s := by
  unfold maskApiKey
  split
  · rename_i a b c heq
    exact absurd (by rw [heq]; rfl) h
  · rfl

/-- C10: maskApiKey masks the secret segment only when the key splits
into exactly three underscore-separated parts; a key whose secret
segment contains an underscore comes back completely unmasked. -/
theorem C10_maskApiKey (keyId secret : String) (hid : '_' ∉ keyId.data) :
    ('_' ∈ secret.data →
      maskApiKey ("frs_" ++ keyId ++ "_" ++ secret)
        = "frs_" ++ keyId ++ "_" ++ secret) ∧
    ('_' ∉ secret.data →
      maskApiKey ("frs_" ++ keyId ++ "_" ++ secret)
        = "frs_" ++ keyId ++ "_" ++ String.mk (List.replicate secret.length '*')) := by
  have hsplit : splitChar '_' ("frs_" ++ keyId ++ "_" ++ secret).data
      = ['f', 'r', 's'] :: keyId.data :: splitChar '_' secret.data := by
    rw [key_data, splitChar_append _ _ _ (by decide), splitChar_append _ _ _ hid]
  constructor
  · intro hmem
    apply maskApiKey_of_length_ne_three
    rw [hsplit]
    have := splitChar_length_ge_two '_' secret.data hmem
    simp only [List.length_cons]
    omega
  · intro hnmem
    unfold maskApiKey
    rw [hsplit, splitChar_of_not_mem _ _ hnmem]
    show String.mk ['f', 'r', 's'] ++ "_" ++ String.mk keyId.data ++ "_"
        ++ String.mk (List.replicate secret.data.length '*') = _
    rw [string_mk_data, show String.mk ['f', 'r', 's'] = "frs" from rfl]
    rfl

/-- Witness for C10: a secret containing an underscore is left fully
visible, while an underscore-free secret is masked. -/
theorem C10_maskApiKey_witness :
    maskApiKey ("frs_" ++ "abCD1234" ++ "_" ++ "se_cret")
      = "frs_" ++ "abCD1234" ++ "_" ++ "se_cret" ∧
    maskApiKey ("frs_" ++ "abCD1234" ++ "_" ++ "secret")
      = "frs_" ++ "abCD1234" ++ "_" ++ String.mk (List.replicate "secret".length '*') := by
  have h := C10_maskApiKey "abCD1234" "se_cret" (by decide)
  have h2 := C10_maskApiKey "abCD1234" "secret" (by decide)
  exact ⟨h.1 (by decide), h2.2 (by decide)⟩

/-! ## Webhook ingester (src/app/api/webhooks/ses/route.ts)

`processSESEvent` reads and writes the email_logs and webhook_events
relations; we model the two relations as lists and the function as a
state transformer.  The JSON.stringify of the message kept in
webhook_data / event_data is modelled by storing the message value
itself. -/

structure BouncedRecipient where
  emailAddress : String
  action : String
  status : String
  diagnosticCode : String
deriving DecidableEq

structure ComplainedRecipient where
  emailAddress : String
deriving DecidableEq

structure BounceInfo where
  bounceType : String
  bounceSubType : String
  bouncedRecipients : List BouncedRecipient
deriving DecidableEq

structure ComplaintInfo where
  complainedRecipients : List ComplainedRecipient
  complaintFeedbackType : String
deriving DecidableEq

structure MailInfo where
  messageId : String
deriving DecidableEq

structure SESMessage where
  eventType : String
  mail : MailInfo
  bounce : Option BounceInfo := none
  complaint : Option ComplaintInfo := none
deriving DecidableEq

structure EmailLog where
  id : Nat
  sesMessageId : String
  status : String
  errorMessage : Option String
  webhookData : Option SESMessage
deriving DecidableEq

structure WebhookEvent where
  emailLogId : Option Nat
  eventType : String
  eventData : SESMessage
  processed : Bool
deriving DecidableEq

structure DB where
  emailLogs : List EmailLog
  webhookEvents : List WebhookEvent
deriving DecidableEq

/-- The switch statement of `processSESEvent`: maps the event type to
the new status and error message; the default branch keeps the found
log's status (passed as `fallback`) and a null error message. -/
def mapEvent (m : SESMessage) (fallback : String) : String × Option String :=
  match m.eventType with
  | "delivery" => ("delivered", none)
  | "bounce" =>
      ("bounced",
        m.bounce.map (fun b =>
          String.intercalate "; "
            (b.bouncedRecipients.map
              (fun r => r.emailAddress ++ ": " ++ r.diagnosticCode))))
  | "complaint" =>
      ("complained",
        some ("Complaint from: " ++
          (match m.complaint with
           | some c =>
               String.intercalate ", "
                 (c.complainedRecipients.map (fun r => r.emailAddress))
           | none => "undefined")))
  | "reject" => ("failed", some "Email rejected by SES")
  | _ => (fallback, none)

/-- `processSESEvent`: look the email log up by provider message id; on
no match, log a warning and return (the unprocessed-event insert in the
source lives only in the exception-recovery path, which the pure model
never reaches); on a match, switch on the event type via `mapEvent`,
update the matching log row, and append a processed webhook event. -/
def processSESEvent (m : SESMessage) (db : DB) : DB :=
  match db.emailLogs.find? (fun l => l.sesMessageId == m.mail.messageId) with
  | none => db
  | some log =>
    let p : String × Option String := mapEvent m log.status
    { emailLogs := db.emailLogs.map (fun l =>
        if l.id = log.id then
          { l with status := p.1, errorMessage := p.2, webhookData := some m }
        else l),
      webhookEvents := db.webhookEvents ++
        [{ emailLogId := some log.id, eventType := m.eventType,
           eventData := m, processed := true }] }

/-- A concrete bounce report with two bounced recipients, used as the
witness input for the status-mapping claim. -/
def bounceW : BounceInfo :=
  { bounceType := "Permanent", bounceSubType := "General",
    bouncedRecipients :=
      [{ emailAddress := "a@x.com", action := "failed", status := "5.1.1",
         diagnosticCode := "smtp; 550 user unknown" },
       { emailAddress := "b@y.com", action := "failed", status := "5.1.2",
         diagnosticCode := "smtp; 550 no such host" }] }

/-- A concrete bounce event notification for message id m1. -/
def bounceMsgW : SESMessage :=
  { eventType := "bounce", mail := { messageId := "m1" }, bounce := some bounceW }

/-- A concrete stored email log for message id m1. -/
def logW : EmailLog :=
  { id := 1, sesMessageId := "m1", status := "sent", errorMessage := none,
    webhookData := none }

/-- A concrete database holding only `logW`. -/
def dbW : DB := { emailLogs := [logW], webhookEvents := [] }

/-- C1 (amended): an event whose provider message id matches no stored
email log leaves the database completely unchanged — no email log is
created or updated, and no webhook event row is recorded either (the
unmatched-event insert in the source happens only in the
exception-recovery path, not on a clean no-match return). -/
theorem C1_unmatched_event (m : SESMessage) (db : DB)
    (h : db.emailLogs.find? (fun l => l.sesMessageId == m.mail.messageId) = none) :
    processSESEvent m db = db := by
  simp only [processSESEvent, h]

/-- Witness for C1 on a concrete unmatched delivery event. -/
theorem C1_unmatched_event_witness :
    processSESEvent
      { eventType := "delivery", mail := { messageId := "m1" } }
      { emailLogs := [], webhookEvents := [] }
      = { emailLogs := [], webhookEvents := [] } :=
  C1_unmatched_event _ _ (by decide)

/-- C1 counterexample: for an unmatched event the claim predicts exactly
one webhook_events row with processed = false, but the ingester records
none: the row count stays zero. -/
theorem C1_counterexample :
    (processSESEvent
        { eventType := "delivery", mail := { messageId := "m1" } }
        { emailLogs := [], webhookEvents := [] }).webhookEvents.length = 0 := by
  decide

/-- C4: for a matched event the ingester maps delivery to delivered,
bounce to bounced with the per-recipient diagnostic concatenation,
complaint to complained with the complaining-recipient list, and reject
to failed with a fixed message; it updates the matched log's status,
error message and raw payload and appends a processed webhook event row
referencing the log. -/
theorem C4_status_mapping (m : SESMessage) (db : DB) (log : EmailLog)
    (hfind : db.emailLogs.find? (fun l => l.sesMessageId == m.mail.messageId)
      = some log) :
    (m.eventType = "delivery" →
      processSESEvent m db =
        { emailLogs := db.emailLogs.map (fun l =>
            if l.id = log.id then
              { l with status := "delivered", errorMessage := none,
                       webhookData := some m }
            else l),
          webhookEvents := db.webhookEvents ++
            [{ emailLogId := some log.id, eventType := m.eventType,
               eventData := m, processed := true }] }) ∧
    (∀ b, m.eventType = "bounce" → m.bounce = some b →
      processSESEvent m db =
        { emailLogs := db.emailLogs.map (fun l =>
            if l.id = log.id then
              { l with status := "bounced",
                       errorMessage := some (String.intercalate "; "
                         (b.bouncedRecipients.map
                           (fun r => r.emailAddress ++ ": " ++ r.diagnosticCode))),
                       webhookData := some m }
            else l),
          webhookEvents := db.webhookEvents ++
            [{ emailLogId := some log.id, eventType := m.eventType,
               eventData := m, processed := true }] }) ∧
    (∀ c, m.eventType = "complaint" → m.complaint = some c →
      processSESEvent m db =
        { emailLogs := db.emailLogs.map (fun l =>
            if l.id = log.id then
              { l with status := "complained",
                       errorMessage := some ("Complaint from: " ++
                         String.intercalate ", "
                           (c.complainedRecipients.map (fun r => r.emailAddress))),
                       webhookData := some m }
            else l),
          webhookEvents := db.webhookEvents ++
            [{ emailLogId := some log.id, eventType := m.eventType,
               eventData := m, processed := true }] }) ∧
    (m.eventType = "reject" →
      processSESEvent m db =
        { emailLogs := db.emailLogs.map (fun l =>
            if l.id = log.id then
              { l with status := "failed",
                       errorMessage := some "Email rejected by SES",
                       webhookData := some m }
            else l),
          webhookEvents := db.webhookEvents ++
            [{ emailLogId := some log.id, eventType := m.eventType,
               eventData := m, processed := true }] }) := by
  refine ⟨?_, ?_, ?_, ?_⟩
  · intro h
    simp only [processSESEvent, mapEvent, hfind, h]
  · intro b h hb
    simp only [processSESEvent, mapEvent, hfind, h, hb, Option.map_some']
  · intro c h hc
    simp only [processSESEvent, mapEvent, hfind, h, hc]
  · intro h
    simp only [processSESEvent, mapEvent, hfind, h]

/-- Witness for C4: a bounce with two bounced recipients sets status
bounced and an error message naming both addresses and diagnostic
codes. -/
theorem C4_status_mapping_witness :
    processSESEvent bounceMsgW dbW =
      { emailLogs := [{ id := 1, sesMessageId := "m1", status := "bounced",
                        errorMessage := some
                          "a@x.com: smtp; 550 user unknown; b@y.com: smtp; 550 no such host",
                        webhookData := some bounceMsgW }],
        webhookEvents := [{ emailLogId := some 1, eventType := "bounce",
                            eventData := bounceMsgW, processed := true }] } := by
  rw [(C4_status_mapping bounceMsgW dbW logW (by decide)).2.1 bounceW rfl rfl]
  decide


/-- C9 (amended): a matched event of type send (or any type outside
delivery/bounce/complaint/reject) is not ignored: the matched log's
status keeps its stored value, but its error message is overwritten
with null and its raw webhook payload with the new event, and a
processed webhook event row is still appended. -/
theorem C9_send_event_not_ignored (m : SESMessage) (db : DB) (log : EmailLog)
    (hfind : db.emailLogs.find? (fun l => l.sesMessageId == m.mail.messageId)
      = some log)
    (h1 : m.eventType ≠ "delivery") (h2 : m.eventType ≠ "bounce")
    (h3 : m.eventType ≠ "complaint") (h4 : m.eventType ≠ "reject") :
    processSESEvent m db =
      { emailLogs := db.emailLogs.map (fun l =>
          if l.id = log.id then
            { l with status := log.status, errorMessage := none,
                     webhookData := some m }
          else l),
        webhookEvents := db.webhookEvents ++
          [{ emailLogId := some log.id, eventType := m.eventType,
             eventData := m, processed := true }] } := by
  have hmap : mapEvent m log.status = (log.status, none) := by
    unfold mapEvent
    split
    · exact absurd (by assumption) h1
    · exact absurd (by assumption) h2
    · exact absurd (by assumption) h3
    · exact absurd (by assumption) h4
    · rfl
  simp only [processSESEvent, hfind, hmap]

/-- Witness for C9 on a concrete send event. -/
theorem C9_send_event_not_ignored_witness :
    processSESEvent
      { eventType := "send", mail := { messageId := "m1" } }
      { emailLogs := [{ id := 1, sesMessageId := "m1", status := "sent",
                        errorMessage := some "old error", webhookData := none }],
        webhookEvents := [] }
      = { emailLogs := [{ id := 1, sesMessageId := "m1", status := "sent",
                          errorMessage := none,
                          webhookData := some
                            { eventType := "send", mail := { messageId := "m1" } } }],
          webhookEvents :=
            [{ emailLogId := some 1, eventType := "send",
               eventData := { eventType := "send", mail := { messageId := "m1" } },
               processed := true }] } := by
  have h := C9_send_event_not_ignored
    { eventType := "send", mail := { messageId := "m1" } }
    { emailLogs := [{ id := 1, sesMessageId := "m1", status := "sent",
                      errorMessage := some "old error", webhookData := none }],
      webhookEvents := [] }
    { id := 1, sesMessageId := "m1", status := "sent",
      errorMessage := some "old error", webhookData := none }
    (by decide) (by decide) (by decide) (by decide) (by decide)
  rw [h]
  decide

/-- C9 counterexample: a matched send event does mutate the log — the
stored error message is cleared to null, the raw payload is overwritten,
and a processed event row is appended, contradicting the claim that the
log is left unchanged. -/
theorem C9_counterexample :
    ((processSESEvent
        { eventType := "send", mail := { messageId := "m1" } }
        { emailLogs := [{ id := 1, sesMessageId := "m1", status := "sent",
                          errorMessage := some "old error", webhookData := none }],
          webhookEvents := [] }).emailLogs.map (fun l => l.errorMessage)
      = [none]) ∧
    (processSESEvent
        { eventType := "send", mail := { messageId := "m1" } }
        { emailLogs := [{ id := 1, sesMessageId := "m1", status := "sent",
                          errorMessage := some "old error", webhookData := none }],
          webhookEvents := [] }).webhookEvents.length = 1 := by
  decide

/-! ## Email-send authorization (src/app/api/emails/route.ts)

The handler body after schema validation: resolve the key's domain,
check the domain status, the from-address domain part, and the send
permission, in that order.  Each check returns its HTTP error; only
when all pass does the handler proceed to the provider send. -/

structure DomainRow where
  id : Nat
  domain : String
  status : String
deriving DecidableEq

structure ApiKeyAuth where
  domain_id : Nat
  permissions : List String
deriving DecidableEq

/-- `getDomainById` (src/lib/domains.ts): first row whose id matches. -/
def getDomainById (domains : List DomainRow) (i : Nat) : Option DomainRow :=
  domains.find? (fun d => d.id == i)

/-- JavaScript `s.split(sep)` producing strings. -/
def jsSplit (sep : Char) (s : String) : List String :=
  (splitChar sep s.data).map String.mk

inductive SendOutcome
  | domainNotFound
  | domainNotVerified
  | domainMismatch (d : String)
  | noSendPermission
  | send
deriving DecidableEq

/-- The HTTP status each outcome is returned with. -/
def sendStatusCode : SendOutcome → Nat
  | .domainNotFound => 404
  | .domainNotVerified => 400
  | .domainMismatch _ => 400
  | .noSendPermission => 403
  | .send => 200

/-- The authorization chain of `sendEmailHandler`: 404 when the key's
domain does not resolve, 400 when it is not verified, 400 when the from
address's domain part (JavaScript split on the at-sign, index 1)
differs from the bound domain, 403 when the permission list lacks
"send", otherwise proceed. -/
def sendEmailAuth (domains : List DomainRow) (apiKey : ApiKeyAuth)
    (fromAddr : String) : SendOutcome :=
  match getDomainById domains apiKey.domain_id with
  | none => .domainNotFound
  | some d =>
    if d.status ≠ "verified" then .domainNotVerified
    else if (jsSplit '@' fromAddr)[1]? ≠ some d.domain then .domainMismatch d.domain
    else if ¬ (apiKey.permissions.contains "send" = true) then .noSendPermission
    else .send

/-- C3: the authorization checks run in a fixed total order — missing
domain (404), then unverified domain (400), then from-domain mismatch
(400), then missing send permission (403) — so a valid permitted key
bound to one domain with a from address in another always receives the
domain-mismatch error. -/
theorem C3_send_authorization (domains : List DomainRow) (k : ApiKeyAuth)
    (fromAddr : String) :
    (getDomainById domains k.domain_id = none →
      sendEmailAuth domains k fromAddr = .domainNotFound ∧
      sendStatusCode (sendEmailAuth domains k fromAddr) = 404) ∧
    (∀ d, getDomainById domains k.domain_id = some d → d.status ≠ "verified" →
      sendEmailAuth domains k fromAddr = .domainNotVerified ∧
      sendStatusCode (sendEmailAuth domains k fromAddr) = 400) ∧
    (∀ d, getDomainById domains k.domain_id = some d → d.status = "verified" →
      (jsSplit '@' fromAddr)[1]? ≠ some d.domain →
      sendEmailAuth domains k fromAddr = .domainMismatch d.domain ∧
      sendStatusCode (sendEmailAuth domains k fromAddr) = 400) ∧
    (∀ d, getDomainById domains k.domain_id = some d → d.status = "verified" →
      (jsSplit '@' fromAddr)[1]? = some d.domain →
      k.permissions.contains "send" = false →
      sendEmailAuth domains k fromAddr = .noSendPermission ∧
      sendStatusCode (sendEmailAuth domains k fromAddr) = 403) ∧
    (∀ d, getDomainById domains k.domain_id = some d → d.status = "verified" →
      (jsSplit '@' fromAddr)[1]? = some d.domain →
      k.permissions.contains "send" = true →
      sendEmailAuth domains k fromAddr = .send) := by
  refine ⟨?_, ?_, ?_, ?_, ?_⟩
  · intro h
    simp [sendEmailAuth, h, sendStatusCode]
  · intro d hd hs
    simp [sendEmailAuth, hd, hs, sendStatusCode]
  · intro d hd hs hmm
    simp [sendEmailAuth, hd, hs, hmm, sendStatusCode]
  · intro d hd hs hmm hp
    have hp2 : "send" ∉ k.permissions := by simpa using hp
    simp [sendEmailAuth, hd, hs, hmm, hp2, sendStatusCode]
  · intro d hd hs hmm hp
    have hp2 : "send" ∈ k.permissions := by simpa using hp
    simp [sendEmailAuth, hd, hs, hmm, hp2]

/-- Witness for C3: a verified domain mine.com, a key holding the send
permission, and from address a@other.com yield the domain-mismatch
outcome with HTTP status 400. -/
theorem C3_send_authorization_witness :
    sendEmailAuth [{ id := 1, domain := "mine.com", status := "verified" }]
        { domain_id := 1, permissions := ["send"] } "a@other.com"
      = .domainMismatch "mine.com" ∧
    sendStatusCode
      (sendEmailAuth [{ id := 1, domain := "mine.com", status := "verified" }]
        { domain_id := 1, permissions := ["send"] } "a@other.com") = 400 :=
  (C3_send_authorization [{ id := 1, domain := "mine.com", status := "verified" }]
      { domain_id := 1, permissions := ["send"] } "a@other.com").2.2.1
    { id := 1, domain := "mine.com", status := "verified" }
    (by decide) (by decide) (by decide)

/-! ## Verification checker (src/lib/domains.ts, checkDomainVerification) -/

/-- The tri-state mapping: Success to verified, Failed to failed,
anything else to pending. -/
def mapVerificationStatus (sesStatus : String) : String :=
  if sesStatus = "Success" then "verified"
  else if sesStatus = "Failed" then "failed"
  else "pending"

/-- The observable outcome of one run of the checker: the returned
status and the status written to the domain row, if any. -/
structure CheckOutcome where
  returned : String
  write : Option String
deriving DecidableEq

/-- `checkDomainVerification`: look the domain up (throw when absent);
ask the provider (`sesStatus`, whose error case models the provider
call throwing: then the stored status is returned and nothing is
written); map the provider state; update the row only when the mapped
status differs from the stored one; return the mapped status. -/
def checkDomainVerification (domains : List DomainRow) (domainId : Nat)
    (sesStatus : Except Unit String) : Except String CheckOutcome :=
  match getDomainById domains domainId with
  | none => .error "Domain not found"
  | some d =>
    match sesStatus with
    | .error _ => .ok { returned := d.status, write := none }
    | .ok s =>
      let newStatus := mapVerificationStatus s
      .ok { returned := newStatus,
            write := if newStatus ≠ d.status then some newStatus else none }

/-- C8: for an existing domain the checker maps the provider tri-state
(Success to verified, Failed to failed, anything else to pending),
writes the mapped status to the row only when it differs from the
stored one (no write when unchanged), and returns the mapped status. -/
theorem C8_verification_checker (domains : List DomainRow) (i : Nat)
    (d : DomainRow) (s : String) (hfind : getDomainById domains i = some d) :
    checkDomainVerification domains i (.ok s) =
      .ok { returned := mapVerificationStatus s,
            write := if mapVerificationStatus s ≠ d.status
                     then some (mapVerificationStatus s) else none } ∧
    mapVerificationStatus "Success" = "verified" ∧
    mapVerificationStatus "Failed" = "failed" ∧
    (s ≠ "Success" → s ≠ "Failed" → mapVerificationStatus s = "pending") ∧
    (mapVerificationStatus s = d.status →
      checkDomainVerification domains i (.ok s)
        = .ok { returned := d.status, write := none }) := by
  refine ⟨?_, rfl, rfl, ?_, ?_⟩
  · simp [checkDomainVerification, hfind]
  · intro h1 h2
    simp [mapVerificationStatus, h1, h2]
  · intro heq
    simp [checkDomainVerification, hfind, heq]

/-- Witness for C8: a pending domain whose provider state is Success is
written and returned as verified; a second run with the now-verified
row writes nothing. -/
theorem C8_verification_checker_witness :
    checkDomainVerification [{ id := 1, domain := "mine.com", status := "pending" }]
        1 (.ok "Success")
      = .ok { returned := "verified", write := some "verified" } ∧
    checkDomainVerification [{ id := 1, domain := "mine.com", status := "verified" }]
        1 (.ok "Success")
      = .ok { returned := "verified", write := none } := by
  have h1 := (C8_verification_checker
    [{ id := 1, domain := "mine.com", status := "pending" }] 1
    { id := 1, domain := "mine.com", status := "pending" } "Success" (by decide)).1
  have h2 := ((C8_verification_checker
    [{ id := 1, domain := "mine.com", status := "verified" }] 1
    { id := 1, domain := "mine.com", status := "verified" } "Success" (by decide)).2.2.2.2)
    (by decide)
  exact ⟨by rw [h1]; rfl, h2⟩

/-! ## DNS provider adapter (src/lib/digitalocean.ts)

`setupDomainDNS` fetches the existing record set once, then walks the
generated records: a record is considered existing by exact
type+name+value match (non-CNAME) or by name-only match (CNAME); only
missing records are created.  `createDNSRecord` transforms the record
into the provider's shape: the name is made relative to the domain, and
for MX records the value "priority host" is split into a numeric
priority and a hostname forced to end with a dot. -/

structure DNSRecord where
  type : String
  name : String
  value : String
  ttl : Nat
deriving DecidableEq

/-- A record as the DNS provider stores it. -/
structure DORecord where
  type : String
  name : String
  data : String
  priority : Option Nat
  ttl : Nat
deriving DecidableEq

/-- The name transformation of `createDNSRecord` and of the existence
check: "@" for the apex, otherwise the first occurrence of
".(domain)" removed. -/
def relName (domain name : String) : String :=
  if name = domain then "@"
  else String.mk (removeSub ("." ++ domain).data name.data)

/-- The provider-side record `createDNSRecord` creates: data is the
record value, except for MX records whose "priority host" value is
split; the hostname gains a trailing dot when missing. -/
def createDNSRecordStored (domain : String) (r : DNSRecord) : DORecord :=
  let base : DORecord :=
    { type := r.type, name := relName domain r.name, data := r.value,
      priority := none, ttl := r.ttl }
  if r.type = "MX" then
    match splitChar ' ' r.value.data with
    | p0 :: r1 :: rest =>
      let host := String.intercalate " " ((r1 :: rest).map String.mk)
      let host := if host.data.getLast? = some '.' then host else host ++ "."
      { base with data := host, priority := (String.mk p0).toNat? }
    | _ => base
  else base

/-- The existence check of the reconciliation loop. -/
def recordExists (existing : List DORecord) (domain : String) (r : DNSRecord) : Bool :=
  let rn := relName domain r.name
  if r.type = "CNAME" then existing.any (fun e => e.name == rn)
  else existing.any (fun e => e.type == r.type && e.name == rn && e.data == r.value)

/-- The reconciliation core of `setupDomainDNS`: the existing record
set is fetched once before the loop; each generated record that the
existence check misses is created (per-record creation failures are
skipped in the source; the model lets creations succeed).  Returns the
created records as the provider stores them. -/
def setupDomainDNS (domain : String) (dnsRecords : List DNSRecord)
    (existing : List DORecord) : List DORecord :=
  dnsRecords.filterMap (fun r =>
    if recordExists existing domain r then none
    else some (createDNSRecordStored domain r))

/-- Modelled from the spec: `generateDNSRecords` lives in
src/lib/ses.ts, which is absent from src/.  Per spec section 4.2 it
produces, in order, one verification TXT record, one MX record with the
provider's fixed "priority host" value (the DigitalOcean adapter in
src/ parses exactly that shape), one SPF TXT record, one DMARC TXT
record, and one CNAME per DKIM token named
(token)._domainkey.(domain). -/
def generateDNSRecords (domain token : String) (dkimTokens : List String) :
    List DNSRecord :=
  [{ type := "TXT", name := "_amazonses." ++ domain, value := token, ttl := 300 },
   { type := "MX", name := domain,
     value := "10 feedback-smtp.us-east-1.amazonses.com", ttl := 300 },
   { type := "TXT", name := domain,
     value := "v=spf1 include:amazonses.com ~all", ttl := 300 },
   { type := "TXT", name := "_dmarc." ++ domain,
     value := "v=DMARC1; p=none;", ttl := 300 }] ++
  dkimTokens.map (fun t =>
    { type := "CNAME", name := t ++ "._domainkey." ++ domain,
      value := t ++ ".dkim.amazonses.com", ttl := 300 })

theorem recordExists_append_left (e1 e2 : List DORecord) (domain : String)
    (r : DNSRecord) (h : recordExists e1 domain r = true) :
    recordExists (e1 ++ e2) domain r = true := by
  unfold recordExists at h ⊢
  split at h <;> simp_all [List.any_append]

theorem recordExists_append_right (e1 e2 : List DORecord) (domain : String)
    (r : DNSRecord) (h : recordExists e2 domain r = true) :
    recordExists (e1 ++ e2) domain r = true := by
  unfold recordExists at h ⊢
  split at h <;> simp_all [List.any_append]

theorem recordExists_stored (domain : String) (r : DNSRecord)
    (hmx : r.type ≠ "MX") :
    recordExists [createDNSRecordStored domain r] domain r = true := by
  have hstored : createDNSRecordStored domain r =
      { type := r.type, name := relName domain r.name, data := r.value,
        priority := none, ttl := r.ttl } := by
    unfold createDNSRecordStored
    rw [if_neg hmx]
  unfold recordExists
  split
  · simp [hstored]
  · simp [hstored]

theorem recordExists_of_mem (l : List DORecord) (x : DORecord) (domain : String)
    (r : DNSRecord) (hx : x ∈ l) (h : recordExists [x] domain r = true) :
    recordExists l domain r = true := by
  unfold recordExists at h ⊢
  split at h <;> rename_i hty
  · rw [if_pos hty]
    simp only [List.any_eq_true] at h ⊢
    obtain ⟨e, he, hpe⟩ := h
    rw [List.mem_singleton] at he
    exact ⟨x, hx, he ▸ hpe⟩
  · rw [if_neg hty]
    simp only [List.any_eq_true] at h ⊢
    obtain ⟨e, he, hpe⟩ := h
    rw [List.mem_singleton] at he
    exact ⟨x, hx, he ▸ hpe⟩

/-- C5 (amended): the reconciliation is idempotent for every record
list that contains no MX record: a second run against the provider
state left by the first run creates nothing.  MX records are the
exception the counterexample exhibits: the provider stores the hostname
(with trailing dot, priority held separately) while the existence check
compares against the full "priority host" value string, so the MX
record is re-created on every run. -/
theorem C5_dns_setup_idempotent (domain : String) (records : List DNSRecord)
    (existing : List DORecord) (hmx : ∀ r ∈ records, r.type ≠ "MX") :
    setupDomainDNS domain records
      (existing ++ setupDomainDNS domain records existing) = [] := by
  rw [setupDomainDNS, List.filterMap_eq_nil_iff]
  intro r hr
  by_cases h1 : recordExists existing domain r = true
  · rw [if_pos (recordExists_append_left _ _ _ _ h1)]
  · have hmem : createDNSRecordStored domain r ∈
        setupDomainDNS domain records existing := by
      rw [setupDomainDNS, List.mem_filterMap]
      exact ⟨r, hr, by simp [h1]⟩
    have hex2 : recordExists (setupDomainDNS domain records existing) domain r
        = true :=
      recordExists_of_mem _ _ _ _ hmem (recordExists_stored domain r (hmx r hr))
    rw [if_pos (recordExists_append_right _ _ _ _ hex2)]

/-- Witness for C5 on a record list without MX records (verification
TXT, SPF TXT, DMARC TXT and one DKIM CNAME). -/
theorem C5_dns_setup_idempotent_witness :
    setupDomainDNS "example.com"
      [{ type := "TXT", name := "_amazonses.example.com", value := "tok", ttl := 300 },
       { type := "TXT", name := "example.com",
         value := "v=spf1 include:amazonses.com ~all", ttl := 300 },
       { type := "TXT", name := "_dmarc.example.com",
         value := "v=DMARC1; p=none;", ttl := 300 },
       { type := "CNAME", name := "d1._domainkey.example.com",
         value := "d1.dkim.amazonses.com", ttl := 300 }]
      ([] ++ setupDomainDNS "example.com"
        [{ type := "TXT", name := "_amazonses.example.com", value := "tok", ttl := 300 },
         { type := "TXT", name := "example.com",
           value := "v=spf1 include:amazonses.com ~all", ttl := 300 },
         { type := "TXT", name := "_dmarc.example.com",
           value := "v=DMARC1; p=none;", ttl := 300 },
         { type := "CNAME", name := "d1._domainkey.example.com",
           value := "d1.dkim.amazonses.com", ttl := 300 }] []) = [] :=
  C5_dns_setup_idempotent "example.com" _ [] (by decide)

/-- C5 counterexample: for the generated record list of example.com
(which always contains the MX record), the second reconciliation run
against the state created by the first run re-creates exactly the MX
record instead of creating zero records. -/
theorem C5_counterexample :
    (setupDomainDNS "example.com" (generateDNSRecords "example.com" "tok" [])
        (setupDomainDNS "example.com" (generateDNSRecords "example.com" "tok" []) [])).map
        (fun e => e.type) = ["MX"] := by
  decide

/-! ## Domain provisioning workflow (src/lib/domains.ts, addDomain)

The external calls of the workflow are injected as `Except`-valued
parameters.  Every throw inside the big try block is re-thrown by the
outer catch as "Failed to add domain: (message)"; the database insert
is the last effect, so the workflow creates a domain row exactly when
the result is `.ok`. -/

/-- The outcome of every external call `addDomain` makes, in workflow
order: the duplicate-name lookup, the provider verify-domain call
(yielding the verification token), the DKIM-enable call (yielding DKIM
tokens), the configuration-set creation, the DNS-provider ownership
lookup, the DNS-provider record reconciliation, and the row insert. -/
structure AddDomainEnv where
  domainExists : Bool
  verify : Except String String
  dkim : Except String (List String)
  configSet : Except String String
  ownership : Except String Bool
  doSetup : Except String (List DORecord)
  insertOk : Bool

/-- The domains row the workflow inserts. -/
structure DomainRecordRow where
  user_id : String
  domain : String
  status : String
  ses_configuration_set : String
  dns_records : List DNSRecord
  ses_verification_token : String
deriving DecidableEq

structure DomainSetupResult where
  domain : DomainRecordRow
  dnsRecords : List DNSRecord
  sesConfigurationSet : String
  digitalOceanRecords : List DORecord
  setupInstructions : String
deriving DecidableEq

def autoInstructions : String :=
  "DNS records have been automatically created in Digital Ocean."

def notInDOInstructions : String :=
  "Domain not found in Digital Ocean. Please create the DNS records manually or add the domain to your Digital Ocean account first."

def manualInstructions : String :=
  "DNS records need to be created manually. Please add the following records to your DNS provider:"

/-- Step 2 of the workflow: the DKIM tokens actually used — the
DKIM-enable failure is caught and replaced by the empty list. -/
def dkimTokensOf (env : AddDomainEnv) : List String :=
  match env.dkim with
  | .ok t => t
  | .error _ => []

/-- Step 5 of the workflow (the inner try around the DNS-provider
calls): created records and setup instructions; any failure is caught
and yields the manual-setup instructions. -/
def doReconcileStep (env : AddDomainEnv) : List DORecord × String :=
  match env.ownership with
  | .error _ => ([], manualInstructions)
  | .ok false => ([], notInDOInstructions)
  | .ok true =>
    match env.doSetup with
    | .error _ => ([], manualInstructions)
    | .ok recs => (recs, autoInstructions)

/-- `addDomain`: validate the name, reject duplicates, verify with the
provider (fatal), enable DKIM (non-fatal), create the configuration
set (inside the try block, hence fatal on failure), generate the DNS
records, reconcile with the DNS provider (non-fatal), insert the
pending domain row (fatal on failure). -/
def addDomain (userId domainName : String) (env : AddDomainEnv) :
    Except String DomainSetupResult :=
  if ¬ (isValidDomain domainName = true) then .error "Invalid domain format"
  else if env.domainExists then .error "Domain already exists"
  else
    match env.verify with
    | .error e => .error ("Failed to add domain: " ++ e)
    | .ok token =>
      match env.configSet with
      | .error e => .error ("Failed to add domain: " ++ e)
      | .ok cs =>
        let dnsRecords := generateDNSRecords domainName token (dkimTokensOf env)
        let doRes := doReconcileStep env
        if env.insertOk then
          .ok { domain := { user_id := userId, domain := domainName,
                            status := "pending", ses_configuration_set := cs,
                            dns_records := dnsRecords,
                            ses_verification_token := token },
                dnsRecords := dnsRecords,
                sesConfigurationSet := cs,
                digitalOceanRecords := doRes.1,
                setupInstructions := doRes.2 }
        else .error "Failed to add domain: Failed to create domain record"

/-- C2 (amended): the provider verify-domain call, the
configuration-set creation and the final row insert are each fatal —
their failure aborts the whole workflow with an error, so no domain row
is created (the insert is the last effect).  The DKIM-enable call and
the DNS-provider reconciliation degrade gracefully: the domain is still
created with status pending, with an empty DKIM token list after a DKIM
failure and with manual-setup instructions after a DNS-provider
failure. -/
theorem C2_addDomain_failure_semantics (userId domainName : String)
    (env : AddDomainEnv) (hvalid : isValidDomain domainName = true)
    (hex : env.domainExists = false) :
    (∀ e, env.verify = .error e →
      addDomain userId domainName env = .error ("Failed to add domain: " ++ e)) ∧
    (∀ token e, env.verify = .ok token → env.configSet = .error e →
      addDomain userId domainName env = .error ("Failed to add domain: " ++ e)) ∧
    (∀ token cs, env.verify = .ok token → env.configSet = .ok cs →
      env.insertOk = false →
      addDomain userId domainName env
        = .error "Failed to add domain: Failed to create domain record") ∧
    (∀ token cs, env.verify = .ok token → env.configSet = .ok cs →
      env.insertOk = true →
      addDomain userId domainName env =
        .ok { domain := { user_id := userId, domain := domainName,
                          status := "pending", ses_configuration_set := cs,
                          dns_records := generateDNSRecords domainName token
                            (dkimTokensOf env),
                          ses_verification_token := token },
              dnsRecords := generateDNSRecords domainName token (dkimTokensOf env),
              sesConfigurationSet := cs,
              digitalOceanRecords := (doReconcileStep env).1,
              setupInstructions := (doReconcileStep env).2 }) ∧
    (∀ e, env.dkim = .error e → dkimTokensOf env = []) ∧
    (∀ e, env.ownership = .error e →
      doReconcileStep env = ([], manualInstructions)) ∧
    (∀ e, env.ownership = .ok true → env.doSetup = .error e →
      doReconcileStep env = ([], manualInstructions)) := by
  refine ⟨?_, ?_, ?_, ?_, ?_, ?_, ?_⟩
  · intro e hv
    simp [addDomain, hvalid, hex, hv]
  · intro token e hv hcs
    simp [addDomain, hvalid, hex, hv, hcs]
  · intro token cs hv hcs hins
    simp [addDomain, hvalid, hex, hv, hcs, hins]
  · intro token cs hv hcs hins
    simp [addDomain, hvalid, hex, hv, hcs, hins]
  · intro e hd
    simp [dkimTokensOf, hd]
  · intro e ho
    simp [doReconcileStep, ho]
  · intro e ho hs
    simp [doReconcileStep, ho, hs]

/-- Witness for C2: with the provider verify succeeding, DKIM failing,
the configuration set created and the insert succeeding, the domain is
still created with status pending and a DKIM-less record set; the
DNS-provider ownership lookup failing yields manual instructions. -/
theorem C2_addDomain_failure_semantics_witness :
    addDomain "u1" "example.com"
      { domainExists := false, verify := .ok "tok", dkim := .error "dkim down",
        configSet := .ok "freeresend-example-com", ownership := .error "do down",
        doSetup := .ok [], insertOk := true }
      = .ok { domain := { user_id := "u1", domain := "example.com",
                          status := "pending",
                          ses_configuration_set := "freeresend-example-com",
                          dns_records := generateDNSRecords "example.com" "tok" [],
                          ses_verification_token := "tok" },
              dnsRecords := generateDNSRecords "example.com" "tok" [],
              sesConfigurationSet := "freeresend-example-com",
              digitalOceanRecords := [],
              setupInstructions := manualInstructions } := by
  have h := C2_addDomain_failure_semantics "u1" "example.com"
    { domainExists := false, verify := .ok "tok", dkim := .error "dkim down",
      configSet := .ok "freeresend-example-com", ownership := .error "do down",
      doSetup := .ok [], insertOk := true }
    (by decide) rfl
  rw [h.2.2.2.1 "tok" "freeresend-example-com" rfl rfl rfl]
  rfl

/-- C2 counterexample: the claim says only the verify-domain call is
fatal and every later step besides DKIM degrades gracefully, but a
failing configuration-set creation (a later step) aborts the whole
workflow with an error, so no domain row is created. -/
theorem C2_counterexample :
    addDomain "u1" "example.com"
      { domainExists := false, verify := .ok "tok", dkim := .ok ["d1"],
        configSet := .error "boom", ownership := .ok true, doSetup := .ok [],
        insertOk := true }
      = .error "Failed to add domain: boom" := by
  rfl

end FreeResend
